import Mathlib

/-!
Verification development for `backlog_template.py`, a script that bulk-creates
linked issues (a parent plus children) in a project-management service from a
TOML template.  The Python source is shallowly embedded below:

* a Python dict holding one issue ("Ticket Spec") becomes an association list
  `Issue = List (String × Value)` with Python dict semantics (ordered, unique
  keys, in-place overwrite on `update`);
* `datetime` values are modelled at day granularity as `Int` day ordinals
  (Python `datetime + timedelta(days=n)` is exactly ordinal addition, and the
  only consumer is `strftime("%Y-%m-%d")`);
* every Python raise site gets its own constructor of `Err` (the assertions of
  `__validate_issue`, the `TypeError` of `None + timedelta`, the `KeyError` of
  `str.format`, `requests.raise_for_status`, ...);
* the network is an oracle `Net : Nat → Except Nat CreatedRef` giving, for the
  n-th POST of a run, either the decoded JSON of a 2xx response or the status
  code of a non-2xx response (on which `raise_for_status` raises);
* the run's state is the list of POST payloads sent so far, threaded through
  every function that can reach the network.
-/

/-- Values a Ticket Spec field can hold after TOML parsing: strings, `datetime`
values (day ordinal), inline tables (used as `timedelta` keyword arguments for
relative due dates), and integers (the remote id attached as `parentIssueId`). -/
inductive Value where
  | str (s : String)
  | date (t : Int)
  | delta (args : List (String × Int))
  | int (n : Int)
  deriving DecidableEq, Repr

/-- One error constructor per Python raise site.

* `missingField` — `assert k in issue` in `__validate_issue` (the spec's
  `MissingFieldError`), carrying the missing mandatory key;
* `unknownReference` — `assert issue[k] in getattr(self, v)` in
  `__validate_issue` (the spec's `UnknownReferenceError`), carrying the field
  and the offending value;
* `configError` — the `TypeError` raised by `basedate + timedelta(**d[k])`
  when `basedate` is `None` (the spec's `ConfigError`);
* `deltaArgError` — the `TypeError` raised by `timedelta(**kwargs)` on a
  keyword outside the day-granularity ones this model supports;
* `valueError` — `raise ValueError` in `convert_date_by_delta` when a date key
  holds neither a datetime nor a dict;
* `substitutionError` — the `KeyError` raised by `str.format` on a placeholder
  missing from the substitutions mapping (the spec's `SubstitutionError`);
* `formatError` — the `ValueError` raised by `str.format` on a malformed
  format string (single brace, unterminated field, brace in a field name);
* `attributeError` — calling `.format` or `.strftime` on a value of the wrong
  type;
* `keyError` — a failing Python dict subscript (`issue["summary"]`,
  `self.pj_issue_types[...]`, project-key lookup);
* `httpError` — `requests.Response.raise_for_status` on a non-2xx status. -/
inductive Err where
  | missingField (k : String)
  | unknownReference (k : String) (v : Value)
  | configError
  | deltaArgError (k : String)
  | valueError (k : String)
  | substitutionError (name : String)
  | formatError
  | attributeError
  | keyError (k : String)
  | httpError (status : Nat)
  deriving DecidableEq, Repr

deriving instance DecidableEq for Except

/-- A Ticket Spec: the Python dict for one issue, keys in insertion order. -/
abbrev Issue := List (String × Value)

/-- Python `d[k]` / `d.get(k)`: value of the first (only) binding of `k`. -/
def dget : Issue → String → Option Value
  | [], _ => none
  | (k', v) :: rest, k => if k' = k then some v else dget rest k

/-- Python `d[k] = v` / `d.update({k: v})`: overwrite in place if the key is
present (keeping its position), else append. -/
def dset : Issue → String → Value → Issue
  | [], k, v => [(k, v)]
  | (k', v') :: rest, k, v =>
    if k' = k then (k, v) :: rest else (k', v') :: dset rest k v

/-- Lookup in a name→id mapping of the metadata cache. -/
def mlookup : List (String × Int) → String → Option Int
  | [], _ => none
  | (k', v) :: rest, k => if k' = k then some v else mlookup rest k

/-- Sum of day-granularity `timedelta` keyword arguments: `timedelta(**args)`
measured in days.  The sub-day keywords (`hours`, `seconds`, ...) are outside
this day-ordinal model; an unrecognised keyword errs like `timedelta`'s
`TypeError` on an unexpected keyword argument. -/
def timedeltaDays : List (String × Int) → Except Err Int
  | [] => .ok 0
  | (k, n) :: rest =>
    if k = "days" then (timedeltaDays rest).map (fun r => n + r)
    else if k = "weeks" then (timedeltaDays rest).map (fun r => 7 * n + r)
    else .error (.deltaArgError k)

/-- The inner `convert_date_by_delta` of `post_affiliated_issue`
(backlog_template.py lines 100-108).  `date_keys` is the single key
`"dueDate"`: a datetime value is left untouched, a dict value is replaced by
`basedate + timedelta(**value)` (a `TypeError` — `Err.configError` — when
`basedate` is `None`), anything else raises `ValueError`. -/
def convert_date_by_delta (basedate : Option Int) (d : Issue) : Except Err Issue :=
  match dget d "dueDate" with
  | none => .ok d
  | some (.date _) => .ok d
  | some (.delta args) =>
    match timedeltaDays args with
    | .error e => .error e
    | .ok off =>
      match basedate with
      | none => .error .configError
      | some b => .ok (dset d "dueDate" (.date (b + off)))
  | some _ => .error (.valueError "dueDate")

/-- Opening curly brace, kept as a named character. -/
def lbrace : Char := Char.ofNat 123

/-- Closing curly brace, kept as a named character. -/
def rbrace : Char := Char.ofNat 125

/-- Scanner state of the `str.format` model: plain text, right after an
opening or closing brace, or inside a replacement field with the name
characters read so far. -/
inductive FmtMode where
  | text
  | afterLBrace
  | afterRBrace
  | field (acc : List Char)

/-- Keyword lookup done by `str.format` for one replacement field: a missing
name raises `KeyError` (the spec's `SubstitutionError`). -/
def formatField : List (String × String) → String → Except Err String
  | [], name => .error (.substitutionError name)
  | (k, v) :: rest, name => if k = name then .ok v else formatField rest name

/-- Model of CPython `str.format(**repl)` restricted to what the templates
use: named fields without conversion or format spec.  Doubled braces escape to
a single brace; a single unmatched brace, an unterminated field, or an opening
brace inside a field name raise `ValueError` (`Err.formatError`). -/
def pyFormatSM (repl : List (String × String)) : FmtMode → List Char → Except Err (List Char)
  | .text, [] => .ok []
  | .text, c :: rest =>
    if c = lbrace then pyFormatSM repl .afterLBrace rest
    else if c = rbrace then pyFormatSM repl .afterRBrace rest
    else
      match pyFormatSM repl .text rest with
      | .error e => .error e
      | .ok t => .ok (c :: t)
  | .afterLBrace, [] => .error .formatError
  | .afterLBrace, c :: rest =>
    if c = lbrace then
      match pyFormatSM repl .text rest with
      | .error e => .error e
      | .ok t => .ok (lbrace :: t)
    else if c = rbrace then
      match formatField repl "" with
      | .error e => .error e
      | .ok v =>
        match pyFormatSM repl .text rest with
        | .error e => .error e
        | .ok t => .ok (v.data ++ t)
    else pyFormatSM repl (.field [c]) rest
  | .afterRBrace, [] => .error .formatError
  | .afterRBrace, c :: rest =>
    if c = rbrace then
      match pyFormatSM repl .text rest with
      | .error e => .error e
      | .ok t => .ok (rbrace :: t)
    else .error .formatError
  | .field _, [] => .error .formatError
  | .field acc, c :: rest =>
    if c = rbrace then
      match formatField repl (String.mk acc) with
      | .error e => .error e
      | .ok v =>
        match pyFormatSM repl .text rest with
        | .error e => .error e
        | .ok t => .ok (v.data ++ t)
    else if c = lbrace then .error .formatError
    else pyFormatSM repl (.field (acc ++ [c])) rest

/-- Python `s.format(**repl)` on a whole string. -/
def pyFormat (repl : List (String × String)) (s : String) : Except Err String :=
  match pyFormatSM repl .text s.data with
  | .error e => .error e
  | .ok t => .ok (String.mk t)

/-- The replacement-field names of a format string, `none` when the string is
malformed.  `formatFieldNames s = some []` states that `s` contains no
placeholder token (it may still contain `\x7b\x7b` / `\x7d\x7d` escapes). -/
def fieldNamesSM : FmtMode → List Char → Option (List String)
  | .text, [] => some []
  | .text, c :: rest =>
    if c = lbrace then fieldNamesSM .afterLBrace rest
    else if c = rbrace then fieldNamesSM .afterRBrace rest
    else fieldNamesSM .text rest
  | .afterLBrace, [] => none
  | .afterLBrace, c :: rest =>
    if c = lbrace then fieldNamesSM .text rest
    else if c = rbrace then (fieldNamesSM .text rest).map (fun l => "" :: l)
    else fieldNamesSM (.field [c]) rest
  | .afterRBrace, [] => none
  | .afterRBrace, c :: rest =>
    if c = rbrace then fieldNamesSM .text rest else none
  | .field _, [] => none
  | .field acc, c :: rest =>
    if c = rbrace then (fieldNamesSM .text rest).map (fun l => String.mk acc :: l)
    else if c = lbrace then none
    else fieldNamesSM (.field (acc ++ [c])) rest

/-- Replacement-field names of a format string. -/
def formatFieldNames (s : String) : Option (List String) :=
  fieldNamesSM .text s.data

/-- One entry of `replace_curly_braces`: a datetime value is copied through,
any other value gets `.format(**repl)` — which is an `AttributeError` on
non-strings (dicts, ints have no `.format`). -/
def substValue (repl : List (String × String)) : Value → Except Err Value
  | .date t => .ok (.date t)
  | .str s =>
    match pyFormat repl s with
    | .error e => .error e
    | .ok t => .ok (.str t)
  | .delta _ => .error .attributeError
  | .int _ => .error .attributeError

/-- The inner `replace_curly_braces` of `post_affiliated_issue`
(backlog_template.py lines 110-117): rebuild the dict in iteration order,
formatting every non-datetime value. -/
def replace_curly_braces (repl : List (String × String)) : Issue → Except Err Issue
  | [] => .ok []
  | (k, v) :: rest =>
    match substValue repl v with
    | .error e => .error e
    | .ok v2 =>
      match replace_curly_braces repl rest with
      | .error e => .error e
      | .ok rest2 => .ok ((k, v2) :: rest2)

/-- `BacklogProject.mandatory_keys` (line 46). -/
def mandatory_keys : List String := ["summary", "issueType", "priority"]

/-- `BacklogProject.substituted_keys` (lines 48-54): template field name paired
with the attribute name of the metadata mapping that must contain its value. -/
def substituted_keys : List (String × String) :=
  [("priority", "priorities"), ("issueType", "pj_issue_types"),
   ("version", "pj_versions"), ("milestone", "pj_versions"),
   ("assignee", "pj_users")]

/-- The metadata cache held by a constructed `BacklogProject`: the project id
and the four name→id mappings indexed from the GET responses. -/
structure BacklogProject where
  project_id : Int
  priorities : List (String × Int)
  pj_issue_types : List (String × Int)
  pj_versions : List (String × Int)
  pj_users : List (String × Int)
  deriving DecidableEq, Repr

/-- Python `getattr(self, v)` for the mapping names listed in
`substituted_keys`. -/
def getMapping (bp : BacklogProject) (v : String) : List (String × Int) :=
  if v = "priorities" then bp.priorities
  else if v = "pj_issue_types" then bp.pj_issue_types
  else if v = "pj_versions" then bp.pj_versions
  else if v = "pj_users" then bp.pj_users
  else []

/-- Python `issue[k] in mapping`: membership of the value among the mapping's
keys (false outright for non-string values, which cannot equal a JSON name). -/
def valueInMapping (v : Value) (m : List (String × Int)) : Bool :=
  match v with
  | .str s => (mlookup m s).isSome
  | _ => false

/-- First loop of `__validate_issue` (lines 142-143): every mandatory key must
be present, asserting on the first missing one. -/
def checkMandatory (issue : Issue) : List String → Except Err Unit
  | [] => .ok ()
  | k :: rest =>
    if (dget issue k).isSome then checkMandatory issue rest
    else .error (.missingField k)

/-- Second loop of `__validate_issue` (lines 145-150): every present
substituted key must hold a name of the corresponding metadata mapping,
asserting on the first offending one. -/
def checkSubstituted (bp : BacklogProject) (issue : Issue) :
    List (String × String) → Except Err Unit
  | [] => .ok ()
  | (k, mname) :: rest =>
    match dget issue k with
    | none => checkSubstituted bp issue rest
    | some v =>
      if valueInMapping v (getMapping bp mname) then checkSubstituted bp issue rest
      else .error (.unknownReference k v)

/-- `BacklogProject.__validate_issue` (lines 141-150): mandatory keys first,
then the metadata-mapping membership of every present substituted key. -/
def validate_issue (bp : BacklogProject) (issue : Issue) : Except Err Unit :=
  match checkMandatory issue mandatory_keys with
  | .error e => .error e
  | .ok _ => checkSubstituted bp issue substituted_keys

/-- Python `mapping.get(issue.get(k))`: `None` when the field is absent, not a
string, or not a key of the mapping. -/
def dictGet (m : List (String × Int)) (v : Option Value) : Option Int :=
  match v with
  | some (.str s) => mlookup m s
  | _ => none

/-- Python `mapping[issue[k]]`: a mandatory dict subscript, `KeyError` when the
value is missing from the mapping. -/
def mindex (m : List (String × Int)) (v : Value) : Except Err Int :=
  match v with
  | .str s =>
    match mlookup m s with
    | some i => .ok i
    | none => .error (.keyError s)
  | _ => .error (.keyError "non-string key")

/-- The decoded JSON body of a successful issue-creation POST: the fields
`id` and `issueKey` that `post_affiliated_issue` reads. -/
structure CreatedRef where
  id : Int
  issueKey : String
  deriving DecidableEq, Repr

/-- The `data` dict built by `BacklogProject.post_issue` (lines 84-95), with
`dueDate` kept as a day ordinal (`strftime("%Y-%m-%d")` is injective on it). -/
structure Payload where
  projectId : Int
  summary : Value
  issueTypeId : Int
  priorityId : Int
  parentIssueId : Option Value
  description : Option Value
  dueDate : Option Int
  versionId : Option Int
  milestoneId : Option Int
  assigneeId : Option Int
  deriving DecidableEq, Repr

/-- Assembly of the POST body by `post_issue`, in Python evaluation order: the
`dates` comprehension first (`.strftime` on a non-datetime `dueDate` would be
an `AttributeError`), then the dict literal with its mandatory subscripts
`issue["summary"]`, `pj_issue_types[issue["issueType"]]`,
`priorities[issue["priority"]]` and total `.get` lookups for the rest. -/
def buildPayload (bp : BacklogProject) (issue : Issue) : Except Err Payload :=
  match dget issue "dueDate" with
  | some (.str _) => .error .attributeError
  | some (.delta _) => .error .attributeError
  | some (.int _) => .error .attributeError
  | dd =>
    let dueDate : Option Int := match dd with
      | some (.date t) => some t
      | _ => none
    match dget issue "summary" with
    | none => .error (.keyError "summary")
    | some summary =>
      match dget issue "issueType" with
      | none => .error (.keyError "issueType")
      | some itv =>
        match mindex bp.pj_issue_types itv with
        | .error e => .error e
        | .ok issueTypeId =>
          match dget issue "priority" with
          | none => .error (.keyError "priority")
          | some pv =>
            match mindex bp.priorities pv with
            | .error e => .error e
            | .ok priorityId =>
              .ok { projectId := bp.project_id
                    summary := summary
                    issueTypeId := issueTypeId
                    priorityId := priorityId
                    parentIssueId := dget issue "parentIssueId"
                    description := dget issue "description"
                    dueDate := dueDate
                    versionId := dictGet bp.pj_versions (dget issue "version")
                    milestoneId := dictGet bp.pj_versions (dget issue "milestone")
                    assigneeId := dictGet bp.pj_users (dget issue "assignee") }

/-- Network oracle: for the n-th issue-creation POST of a run, either the
decoded 2xx response or the non-2xx status code. -/
abbrev Net := Nat → Except Nat CreatedRef

/-- `BacklogProject.post_issue` (lines 80-97) plus `BaseAPI.post`
(lines 20-23): build the payload, perform the POST (appending it to the run's
trace), and let `raise_for_status` raise on a non-2xx response. -/
def post_issue (bp : BacklogProject) (net : Net) (issue : Issue)
    (tr : List Payload) : Except Err CreatedRef × List Payload :=
  match buildPayload bp issue with
  | .error e => (.error e, tr)
  | .ok p =>
    match net tr.length with
    | .error status => (.error (.httpError status), tr ++ [p])
    | .ok r => (.ok r, tr ++ [p])

/-- Left-to-right effectful map, as a Python list comprehension: stop at the
first raising element. -/
def mapExcept (f : α → Except Err β) : List α → Except Err (List β)
  | [] => .ok []
  | x :: xs =>
    match f x with
    | .error e => .error e
    | .ok y =>
      match mapExcept f xs with
      | .error e => .error e
      | .ok ys => .ok (y :: ys)

/-- Left-to-right effectful iteration (the validation list comprehension
`[self.__validate_issue(child) for child in children]`). -/
def forExcept (f : α → Except Err Unit) : List α → Except Err Unit
  | [] => .ok ()
  | x :: xs =>
    match f x with
    | .error e => .error e
    | .ok _ => forExcept f xs

/-- Lines 129-131 of `post_affiliated_issue`: date-convert all children, then
substitute all children, then validate all children — all before any child is
posted.  Returns the fully resolved children on success. -/
def childStages (basedate : Option Int) (repl : List (String × String))
    (bp : BacklogProject) (children : List Issue) : Except Err (List Issue) :=
  match mapExcept (convert_date_by_delta basedate) children with
  | .error e => .error e
  | .ok cs1 =>
    match mapExcept (replace_curly_braces repl) cs1 with
    | .error e => .error e
    | .ok cs2 =>
      match forExcept (validate_issue bp) cs2 with
      | .error e => .error e
      | .ok _ => .ok cs2

/-- Lines 132-139 of `post_affiliated_issue`: post the resolved children
sequentially, attaching `parentIssueId` to each right before its POST. -/
def postChildren (bp : BacklogProject) (net : Net) (pid : Int) :
    List Issue → List Payload → Except Err Unit × List Payload
  | [], tr => (.ok (), tr)
  | c :: cs, tr =>
    match post_issue bp net (dset c "parentIssueId" (.int pid)) tr with
    | (.error e, tr2) => (.error e, tr2)
    | (.ok _, tr2) => postChildren bp net pid cs tr2

/-- An `affiliated_issue`: the template dict of one parent with the value of
its (already popped) `children` key, `[]` when absent (line 120). -/
structure AffiliatedIssue where
  fields : Issue
  children : List Issue
  deriving DecidableEq, Repr

/-- `BacklogProject.post_affiliated_issue` (lines 99-139): resolve the parent
(dates, substitution, validation), post it, read `id` from the response,
resolve and validate every child, then post the children in order. -/
def post_affiliated_issue (bp : BacklogProject) (net : Net)
    (basedate : Option Int) (repl : List (String × String))
    (ai : AffiliatedIssue) (tr : List Payload) : Except Err Unit × List Payload :=
  match convert_date_by_delta basedate ai.fields with
  | .error e => (.error e, tr)
  | .ok c1 =>
    match replace_curly_braces repl c1 with
    | .error e => (.error e, tr)
    | .ok p2 =>
      match validate_issue bp p2 with
      | .error e => (.error e, tr)
      | .ok _ =>
        match post_issue bp net p2 tr with
        | (.error e, tr2) => (.error e, tr2)
        | (.ok r, tr2) =>
          match childStages basedate repl bp ai.children with
          | .error e => (.error e, tr2)
          | .ok cs2 => postChildren bp net r.id cs2 tr2

/-- The submission loop of `BacklogProjectCLI.post` (lines 195-196): process
the affiliated issues in order; an exception anywhere stops the loop. -/
def run_issues (bp : BacklogProject) (net : Net) (basedate : Option Int)
    (repl : List (String × String)) :
    List AffiliatedIssue → List Payload → Except Err Unit × List Payload
  | [], tr => (.ok (), tr)
  | ai :: rest, tr =>
    match post_affiliated_issue bp net basedate repl ai tr with
    | (.error e, tr2) => (.error e, tr2)
    | (.ok _, tr2) => run_issues bp net basedate repl rest tr2

/-- Day ordinal of a proleptic Gregorian civil date, days since 1970-01-01
(Howard Hinnant's `days_from_civil`).  This is how a concrete `datetime` such
as 2024-01-01 is written in the day-ordinal model; Python's
`datetime.toordinal` differs from it only by a constant shift, which date
differences and `+ timedelta` are invariant under. -/
def daysFromCivil (y m d : Int) : Int :=
  let y2 := if m ≤ 2 then y - 1 else y
  let era := (if 0 ≤ y2 then y2 else y2 - 399) / 400
  let yoe := y2 - era * 400
  let mp := (m + 9) % 12
  let doy := (153 * mp + 2) / 5 + d - 1
  let doe := yoe * 365 + yoe / 4 - yoe / 100 + doy
  era * 146097 + doe - 719468

/-- Model of Python `str.lower` on one character (ASCII range; no character
outside it lowercases to an ASCII letter, so comparisons against `"y"` agree
with Python). -/
def pyLowerChar (c : Char) : Char :=
  if 'A' ≤ c ∧ c ≤ 'Z' then Char.ofNat (c.toNat + 32) else c

/-- Model of Python `str.lower` on a string. -/
def pyLower (s : String) : String := String.mk (s.data.map pyLowerChar)

/-- `is_yes` (lines 201-202), as a function of the text the user typed at the
prompt: `input(prompt + " (Y/n): ").lower() == "y"`. -/
def is_yes (answer : String) : Bool := pyLower answer = "y"

/-- The JSON bodies of the five metadata GET responses, already indexed by
`index` (the dict comprehension of line 59-60) into name→id mappings —
`projects` by `projectKey`. -/
structure FetchedData where
  projects : List (String × Int)
  priorities : List (String × Int)
  issueTypes : List (String × Int)
  versions : List (String × Int)
  users : List (String × Int)
  deriving DecidableEq, Repr

/-- One HTTP request of a run: a metadata GET (by endpoint) or an
issue-creation POST (by payload). -/
inductive HttpEvent where
  | get (endpoint : String)
  | post (p : Payload)
  deriving DecidableEq, Repr

/-- `BacklogProject.__init__` (lines 58-72): GET `projects`, resolve the
project id by project key (a `KeyError` aborts before the remaining GETs),
then GET `priorities` and the three project-scoped listings, indexing each
into a name→id mapping.  Returns the constructed cache and the GET events
performed. -/
def construct_project (space_domain : String) (project_key : String)
    (data : FetchedData) : Except Err BacklogProject × List HttpEvent :=
  let base := "https://" ++ space_domain ++ "/api/v2/"
  let e1 := HttpEvent.get (base ++ "projects")
  match mlookup data.projects project_key with
  | none => (.error (.keyError project_key), [e1])
  | some pid =>
    (.ok { project_id := pid
           priorities := data.priorities
           pj_issue_types := data.issueTypes
           pj_versions := data.versions
           pj_users := data.users },
     [e1, HttpEvent.get (base ++ "priorities"),
      HttpEvent.get (base ++ "projects/" ++ toString pid ++ "/issueTypes"),
      HttpEvent.get (base ++ "projects/" ++ toString pid ++ "/versions"),
      HttpEvent.get (base ++ "projects/" ++ toString pid ++ "/users")])

/-- `BacklogProjectCLI.post` from the confirmation prompt on (lines 193-198):
`prepost_check` (template load and echo, no HTTP) has already produced the
target, base date, substitutions and issue list; only when `is_yes` of the
typed reply is true is the `BacklogProject` constructed (the metadata GETs)
and the submission loop run (the POSTs).  Result: outcome and the full HTTP
trace of the command. -/
def cli_post (space_domain : String) (project_key : String) (data : FetchedData)
    (net : Net) (basedate : Option Int) (repl : List (String × String))
    (issues : List AffiliatedIssue) (answer : String) :
    Except Err Unit × List HttpEvent :=
  if is_yes answer then
    match construct_project space_domain project_key data with
    | (.error e, evs) => (.error e, evs)
    | (.ok bp, evs) =>
      match run_issues bp net basedate repl issues [] with
      | (r, tr) => (r, evs ++ tr.map HttpEvent.post)
  else (.ok (), [])

/-- Modelled from the spec's Template Resolver contract, for comparison with
the code path: "fields are resolved in the order — date resolution, then
substitution, then validation", returning the resolved ticket. -/
def resolveTicket_spec (basedate : Option Int) (repl : List (String × String))
    (bp : BacklogProject) (issue : Issue) : Except Err Issue :=
  match convert_date_by_delta basedate issue with
  | .error e => .error e
  | .ok a =>
    match replace_curly_braces repl a with
    | .error e => .error e
    | .ok b =>
      match validate_issue bp b with
      | .error e => .error e
      | .ok _ => .ok b

/-- A present substituted field whose value is missing from its metadata
mapping (decidably phrased). -/
def badReference (bp : BacklogProject) (issue : Issue) (kv : String × String) : Bool :=
  match dget issue kv.1 with
  | some v => !(valueInMapping v (getMapping bp kv.2))
  | none => false

/-- Shape of the POST trace a fully successful parent-plus-children group
appends: the parent's resolution survives all three phases, its payload is
posted first, the remote id of that first POST is attached to every child
payload, and the children's payloads follow in template order, one per
child. -/
def groupTrace (bp : BacklogProject) (net : Net) (basedate : Option Int)
    (repl : List (String × String)) (ai : AffiliatedIssue)
    (tr tr2 : List Payload) : Prop :=
  ∃ c1 p2 pp ref cs2 ps,
    convert_date_by_delta basedate ai.fields = .ok c1 ∧
    replace_curly_braces repl c1 = .ok p2 ∧
    validate_issue bp p2 = .ok () ∧
    buildPayload bp p2 = .ok pp ∧
    net tr.length = .ok ref ∧
    childStages basedate repl bp ai.children = .ok cs2 ∧
    mapExcept (fun c => buildPayload bp (dset c "parentIssueId" (.int ref.id))) cs2
      = .ok ps ∧
    ps.length = ai.children.length ∧
    tr2 = tr ++ pp :: ps ∧
    ∀ p ∈ ps, p.parentIssueId = some (.int ref.id)

/-- Concrete metadata cache used by the witnesses. -/
def bpEx : BacklogProject :=
  { project_id := 1
    priorities := [("Normal", 2)]
    pj_issue_types := [("Task", 3)]
    pj_versions := [("v1", 4)]
    pj_users := [("alice", 5)] }

/-- Network oracle whose n-th POST succeeds with id `n + 100`. -/
def netOkEx : Net := fun n => .ok ⟨(n : Int) + 100, "K"⟩

/-- Network oracle answering HTTP 500 to every POST. -/
def net500Ex : Net := fun _ => .error 500

/-- A valid parent Ticket Spec. -/
def parentEx : Issue :=
  [("summary", .str "Design"), ("issueType", .str "Task"), ("priority", .str "Normal")]

/-- A valid child Ticket Spec. -/
def childEx (s : String) : Issue :=
  [("summary", .str s), ("issueType", .str "Task"), ("priority", .str "Normal")]

/-- A parent with two children. -/
def aiEx : AffiliatedIssue := ⟨parentEx, [childEx "c one", childEx "c two"]⟩

/-- A parent with no children. -/
def aiSoloEx : AffiliatedIssue := ⟨parentEx, []⟩

/-- The payload `parentEx` resolves to under `bpEx`. -/
def ppEx : Payload :=
  { projectId := 1
    summary := .str "Design"
    issueTypeId := 3
    priorityId := 2
    parentIssueId := none
    description := none
    dueDate := none
    versionId := none
    milestoneId := none
    assigneeId := none }

/-- The payload `childEx s` resolves to once `parentIssueId = pid` is
attached. -/
def cpEx (s : String) (pid : Int) : Payload :=
  { ppEx with summary := .str s, parentIssueId := some (.int pid) }

/-- Metadata GET responses used by the `cli_post` witness. -/
def fdEx : FetchedData :=
  ⟨[("PRJ", 7)], [("Normal", 2)], [("Task", 3)], [], []⟩

/-! ### Helper lemmas -/

theorem dget_dset_self (d : Issue) (k : String) (v : Value) :
    dget (dset d k v) k = some v := by
  induction d with
  | nil => simp [dget, dset]
  | cons hd rest ih =>
    obtain ⟨k', v'⟩ := hd
    by_cases hk : k' = k
    · simp [dget, dset, hk]
    · simp [dget, dset, hk, ih]

theorem buildPayload_parentIssueId {bp : BacklogProject} {issue : Issue}
    {p : Payload} (h : buildPayload bp issue = .ok p) :
    p.parentIssueId = dget issue "parentIssueId" := by
  unfold buildPayload at h
  repeat' split at h
  all_goals simp_all
  all_goals (rw [← h])

theorem post_issue_ok {bp : BacklogProject} {net : Net} {issue : Issue}
    {tr tr2 : List Payload} {r : CreatedRef}
    (h : post_issue bp net issue tr = (.ok r, tr2)) :
    ∃ p, buildPayload bp issue = .ok p ∧ net tr.length = .ok r ∧
      tr2 = tr ++ [p] := by
  unfold post_issue at h
  split at h
  · simp_all
  · split at h <;> simp_all

theorem post_issue_trace (bp : BacklogProject) (net : Net) (issue : Issue)
    (tr : List Payload) :
    ∃ added, (post_issue bp net issue tr).2 = tr ++ added := by
  unfold post_issue
  split
  · exact ⟨[], by simp⟩
  · split <;> exact ⟨[_], rfl⟩

theorem postChildren_trace (bp : BacklogProject) (net : Net) (pid : Int) :
    ∀ (cs : List Issue) (tr : List Payload),
      ∃ added, (postChildren bp net pid cs tr).2 = tr ++ added := by
  intro cs
  induction cs with
  | nil => exact fun tr => ⟨[], by simp [postChildren]⟩
  | cons c rest ih =>
    intro tr
    unfold postChildren
    obtain ⟨a1, h1⟩ := post_issue_trace bp net (dset c "parentIssueId" (.int pid)) tr
    split
    next e tr2 heq => exact ⟨a1, by rw [heq] at h1; exact h1⟩
    next r tr2 heq =>
      obtain ⟨a2, h2⟩ := ih tr2
      refine ⟨a1 ++ a2, ?_⟩
      rw [h2, ← List.append_assoc, ← h1, heq]

theorem post_affiliated_trace (bp : BacklogProject) (net : Net)
    (basedate : Option Int) (repl : List (String × String))
    (ai : AffiliatedIssue) (tr : List Payload) :
    ∃ added, (post_affiliated_issue bp net basedate repl ai tr).2 = tr ++ added := by
  unfold post_affiliated_issue
  split
  · exact ⟨[], by simp⟩
  split
  · exact ⟨[], by simp⟩
  split
  · exact ⟨[], by simp⟩
  obtain ⟨a1, h1⟩ := post_issue_trace bp net _ tr
  split
  next e tr2 heq => exact ⟨a1, by rw [heq] at h1; exact h1⟩
  next r tr2 heq =>
    split
    · exact ⟨a1, by rw [heq] at h1; exact h1⟩
    · obtain ⟨a2, h2⟩ := postChildren_trace bp net r.id _ tr2
      refine ⟨a1 ++ a2, ?_⟩
      rw [h2, ← List.append_assoc, ← h1, heq]

theorem mapExcept_ok_length {f : α → Except Err β} :
    ∀ {l : List α} {l' : List β}, mapExcept f l = .ok l' → l'.length = l.length := by
  intro l
  induction l with
  | nil => intro l' h; simp [mapExcept] at h; simp [← h]
  | cons x xs ih =>
    intro l' h
    unfold mapExcept at h
    split at h
    · simp_all
    · split at h
      · simp_all
      · next ys hys =>
          cases h
          simp [ih hys]

theorem childStages_ok {basedate : Option Int} {repl : List (String × String)}
    {bp : BacklogProject} {children : List Issue} {cs2 : List Issue}
    (h : childStages basedate repl bp children = .ok cs2) :
    ∃ cs1, mapExcept (convert_date_by_delta basedate) children = .ok cs1 ∧
      mapExcept (replace_curly_braces repl) cs1 = .ok cs2 ∧
      forExcept (validate_issue bp) cs2 = .ok () ∧
      cs2.length = children.length := by
  unfold childStages at h
  split at h
  · simp_all
  next cs1 h1 =>
    split at h
    · simp_all
    next cs2' h2 =>
      split at h
      · simp_all
      next h3 =>
        cases h
        exact ⟨cs1, h1, h2, h3,
          (mapExcept_ok_length h2).trans (mapExcept_ok_length h1)⟩

theorem postChildren_ok {bp : BacklogProject} {net : Net} {pid : Int} :
    ∀ {cs : List Issue} {tr tr2 : List Payload},
      postChildren bp net pid cs tr = (.ok (), tr2) →
      ∃ ps, mapExcept (fun c => buildPayload bp (dset c "parentIssueId" (.int pid))) cs
              = .ok ps ∧
        tr2 = tr ++ ps ∧
        ∀ p ∈ ps, p.parentIssueId = some (.int pid) := by
  intro cs
  induction cs with
  | nil =>
    intro tr tr2 h
    simp [postChildren] at h
    exact ⟨[], by simp [mapExcept], by simp [h], by simp⟩
  | cons c rest ih =>
    intro tr tr2 h
    unfold postChildren at h
    split at h
    · simp_all
    next r trx heq =>
      obtain ⟨p, hb, _, htr⟩ := post_issue_ok heq
      obtain ⟨ps, hm, htr2, hall⟩ := ih h
      refine ⟨p :: ps, ?_, ?_, ?_⟩
      · simp [mapExcept, hb, hm]
      · rw [htr2, htr, List.append_assoc]; rfl
      · intro q hq
        rcases List.mem_cons.mp hq with hq | hq
        · subst hq
          rw [buildPayload_parentIssueId hb, dget_dset_self]
        · exact hall q hq

theorem checkMandatory_ok {issue : Issue} :
    ∀ {L : List String}, (∀ k ∈ L, (dget issue k).isSome) →
      checkMandatory issue L = .ok () := by
  intro L
  induction L with
  | nil => intro _; rfl
  | cons k rest ih =>
    intro h
    have hk := h k (by simp)
    simp [checkMandatory, hk]
    exact ih fun k' hk' => h k' (by simp [hk'])

theorem checkMandatory_missing {issue : Issue} :
    ∀ {L : List String}, (∃ k ∈ L, dget issue k = none) →
      ∃ k ∈ L, dget issue k = none ∧
        checkMandatory issue L = .error (.missingField k) := by
  intro L
  induction L with
  | nil => rintro ⟨k, hk, _⟩; cases hk
  | cons k rest ih =>
    rintro ⟨k0, hk0, hnone⟩
    by_cases hk : (dget issue k).isSome
    · have hk0r : k0 ∈ rest := by
        rcases List.mem_cons.mp hk0 with h | h
        · subst h; rw [hnone] at hk; cases hk
        · exact h
      obtain ⟨k1, hk1, hn1, hc1⟩ := ih ⟨k0, hk0r, hnone⟩
      exact ⟨k1, by simp [hk1], hn1, by simp [checkMandatory, hk, hc1]⟩
    · refine ⟨k, by simp, ?_, by simp [checkMandatory, hk]⟩
      exact Option.not_isSome_iff_eq_none.mp hk

theorem checkSubstituted_bad {bp : BacklogProject} {issue : Issue} :
    ∀ {L : List (String × String)},
      (∃ kv ∈ L, ∃ v, dget issue kv.1 = some v ∧
        valueInMapping v (getMapping bp kv.2) = false) →
      ∃ kv ∈ L, ∃ v, dget issue kv.1 = some v ∧
        valueInMapping v (getMapping bp kv.2) = false ∧
        checkSubstituted bp issue L = .error (.unknownReference kv.1 v) := by
  intro L
  induction L with
  | nil => rintro ⟨kv, hkv, _⟩; cases hkv
  | cons kv0 rest ih =>
    rintro ⟨kv, hkv, v, hget, hbad⟩
    obtain ⟨k0, m0⟩ := kv0
    rcases hd : dget issue k0 with _ | v0
    · have hkvr : kv ∈ rest := by
        rcases List.mem_cons.mp hkv with h | h
        · subst h; rw [hget] at hd; cases hd
        · exact h
      obtain ⟨kv1, h1, v1, h2, h3, h4⟩ := ih ⟨kv, hkvr, v, hget, hbad⟩
      exact ⟨kv1, by simp [h1], v1, h2, h3, by simp [checkSubstituted, hd, h4]⟩
    · by_cases hgood : valueInMapping v0 (getMapping bp m0) = true
      · have hkvr : kv ∈ rest := by
          rcases List.mem_cons.mp hkv with h | h
          · subst h
            rw [hget] at hd
            cases hd
            rw [hgood] at hbad
            cases hbad
          · exact h
        obtain ⟨kv1, h1, v1, h2, h3, h4⟩ := ih ⟨kv, hkvr, v, hget, hbad⟩
        exact ⟨kv1, by simp [h1], v1, h2, h3,
          by simp [checkSubstituted, hd, hgood, h4]⟩
      · have hbad0 : valueInMapping v0 (getMapping bp m0) = false :=
          Bool.eq_false_iff.mpr hgood
        exact ⟨(k0, m0), by simp, v0, hd, hbad0,
          by simp [checkSubstituted, hd, hbad0]⟩

theorem pyFormatSM_nobrace (repl : List (String × String)) :
    ∀ l : List Char, (∀ c ∈ l, c ≠ lbrace ∧ c ≠ rbrace) →
      pyFormatSM repl .text l = .ok l := by
  intro l
  induction l with
  | nil => intro _; rfl
  | cons c rest ih =>
    intro h
    have hc := h c (by simp)
    have hrest := ih fun c' hc' => h c' (by simp [hc'])
    simp [pyFormatSM, hc.1, hc.2, hrest]

/-! ### Claim theorems -/

/-- C1: for every parent Ticket Spec with N children submitted in one run that
succeeds, exactly one parent POST (the resolved parent's payload) occurs
before any child POST; the id returned in the parent's response is attached to
every child as `parentIssueId` before that child is posted, and the N children
are posted strictly sequentially in template order. -/
theorem C1_one_parent_post_then_children_in_order (bp : BacklogProject)
    (net : Net) (basedate : Option Int) (repl : List (String × String))
    (ai : AffiliatedIssue) (tr tr2 : List Payload)
    (h : post_affiliated_issue bp net basedate repl ai tr = (.ok (), tr2)) :
    groupTrace bp net basedate repl ai tr tr2 := by
  unfold post_affiliated_issue at h
  split at h
  · simp at h
  next c1 hc1 =>
  split at h
  · simp at h
  next p2 hp2 =>
  split at h
  · simp at h
  next u hv =>
  split at h
  next e trx heq => simp at h
  next r trx heq =>
  split at h
  · simp at h
  next cs2 hcs =>
  obtain ⟨pp, hb, hn, htrx⟩ := post_issue_ok heq
  obtain ⟨ps, hm, htr2, hall⟩ := postChildren_ok h
  obtain ⟨cs1, hm1, hm2, hfv, hlen⟩ := childStages_ok hcs
  refine ⟨c1, p2, pp, r, cs2, ps, hc1, hp2, ?_, hb, hn, hcs, hm, ?_, ?_, hall⟩
  · cases u; exact hv
  · rw [mapExcept_ok_length hm, hlen]
  · rw [htr2, htrx, List.append_assoc]; rfl

/-- Witness for C1: a concrete successful run of a parent with two children,
whose trace is the parent payload followed by both child payloads carrying the
parent's returned id 100. -/
theorem C1_witness :
    groupTrace bpEx netOkEx none [] aiEx []
      [ppEx, cpEx "c one" 100, cpEx "c two" 100] :=
  C1_one_parent_post_then_children_in_order bpEx netOkEx none [] aiEx []
    [ppEx, cpEx "c one" 100, cpEx "c two" 100] (by decide)

/-- C4: a non-2xx response to any issue-creation POST aborts the entire
remaining batch — processing the failing prefix alone already yields the final
result, so no POST of any later group (or of anything after the failure) is
attempted; the `HttpError` is surfaced to the caller; and the trace only ever
grows, so issues posted earlier in the run remain posted (there is no delete
of any kind in the pipeline). -/
theorem C4_non2xx_aborts_remaining_batch (bp : BacklogProject) (net : Net)
    (basedate : Option Int) (repl : List (String × String))
    (xs ys : List AffiliatedIssue) (tr tr2 : List Payload) (e : Err)
    (h : run_issues bp net basedate repl xs tr = (.error e, tr2)) :
    run_issues bp net basedate repl (xs ++ ys) tr = (.error e, tr2) ∧
      ∃ posted, tr2 = tr ++ posted := by
  induction xs generalizing tr with
  | nil => simp [run_issues] at h
  | cons ai rest ih =>
    rw [List.cons_append]
    unfold run_issues at h ⊢
    split at h
    next e' trx heq =>
      simp at h
      obtain ⟨rfl, rfl⟩ := h
      refine ⟨rfl, ?_⟩
      obtain ⟨a, ha⟩ := post_affiliated_trace bp net basedate repl ai tr
      rw [heq] at ha
      exact ⟨a, ha⟩
    next r trx heq =>
      obtain ⟨hrun, posted, hposted⟩ := ih trx h
      refine ⟨hrun, ?_⟩
      obtain ⟨a, ha⟩ := post_affiliated_trace bp net basedate repl ai tr
      rw [heq] at ha
      simp only [] at ha
      exact ⟨a ++ posted, by rw [hposted, show trx = tr ++ a from ha, List.append_assoc]⟩

/-- Witness for C4: a run of two identical groups where every POST answers
HTTP 500 — the failing first group is the whole result, the parent of the
first group stays in the trace, and no further POST is attempted. -/
theorem C4_witness :
    run_issues bpEx net500Ex none [] ([aiSoloEx] ++ [aiSoloEx]) []
        = (.error (.httpError 500), [ppEx]) ∧
      ∃ posted, [ppEx] = ([] : List Payload) ++ posted :=
  C4_non2xx_aborts_remaining_batch bpEx net500Ex none [] [aiSoloEx] [aiSoloEx]
    [] [ppEx] (.httpError 500) (by decide)

/-- C10: within one parent-plus-children group, all children are
date-resolved, substituted and validated before any child is posted: when any
child fails one of those stages, the group ends with that error and the
group's POST trace is exactly the parent's single payload — zero child POSTs,
even for valid earlier siblings, while the parent has already been posted. -/
theorem C10_group_child_failure_zero_child_posts (bp : BacklogProject)
    (net : Net) (basedate : Option Int) (repl : List (String × String))
    (parent : Issue) (children : List Issue) (tr : List Payload)
    (c1 p2 : Issue) (r : CreatedRef) (trx : List Payload) (e : Err)
    (h1 : convert_date_by_delta basedate parent = .ok c1)
    (h2 : replace_curly_braces repl c1 = .ok p2)
    (h3 : validate_issue bp p2 = .ok ())
    (h4 : post_issue bp net p2 tr = (.ok r, trx))
    (h5 : childStages basedate repl bp children = .error e) :
    post_affiliated_issue bp net basedate repl ⟨parent, children⟩ tr
        = (.error e, trx) ∧
      ∃ pp, buildPayload bp p2 = .ok pp ∧ trx = tr ++ [pp] := by
  constructor
  · unfold post_affiliated_issue
    simp only [h1, h2, h3, h4, h5]
  · obtain ⟨pp, hb, _, htr⟩ := post_issue_ok h4
    exact ⟨pp, hb, htr⟩

/-- Witness for C10: a valid parent whose second child is valid but whose
first child lacks `issueType` — the parent is posted (one payload in the
trace) and no child POST happens. -/
theorem C10_witness :
    post_affiliated_issue bpEx netOkEx none []
        ⟨parentEx, [[("summary", .str "c")], childEx "fine"]⟩ []
        = (.error (.missingField "issueType"), [ppEx]) ∧
      ∃ pp, buildPayload bpEx parentEx = .ok pp ∧ [ppEx] = [] ++ [pp] :=
  C10_group_child_failure_zero_child_posts bpEx netOkEx none [] parentEx
    [[("summary", .str "c")], childEx "fine"] [] parentEx parentEx
    ⟨100, "K"⟩ [ppEx] (.missingField "issueType") (by decide) (by decide)
    (by decide) (by decide) (by decide)

/-- C2 (amended): for every Ticket Spec whose mandatory fields are all
present and in which some field of `substituted_keys` holds a value absent
from its metadata mapping, validation fails with an `UnknownReferenceError`
naming an offending field and its value, and a parent Ticket Spec resolving to
it is never posted (its group performs no POST at all).  The original claim,
without the mandatory-fields proviso, is refuted by
`C2_claim_counterexample`. -/
theorem C2_unknown_reference_fails_before_post (bp : BacklogProject)
    (issue : Issue)
    (hmand : ∀ k ∈ mandatory_keys, (dget issue k).isSome)
    (hbad : ∃ kv ∈ substituted_keys, badReference bp issue kv = true) :
    ∃ kv ∈ substituted_keys, ∃ v, dget issue kv.1 = some v ∧
      valueInMapping v (getMapping bp kv.2) = false ∧
      validate_issue bp issue = .error (.unknownReference kv.1 v) ∧
      ∀ (net : Net) (basedate : Option Int) (repl : List (String × String))
        (tr : List Payload) (praw c1 : Issue) (children : List Issue),
        convert_date_by_delta basedate praw = .ok c1 →
        replace_curly_braces repl c1 = .ok issue →
        post_affiliated_issue bp net basedate repl ⟨praw, children⟩ tr
          = (.error (.unknownReference kv.1 v), tr) := by
  have hbad' : ∃ kv ∈ substituted_keys, ∃ v, dget issue kv.1 = some v ∧
      valueInMapping v (getMapping bp kv.2) = false := by
    obtain ⟨kv, hkv, hb⟩ := hbad
    unfold badReference at hb
    rcases hd : dget issue kv.1 with _ | v
    · rw [hd] at hb; cases hb
    · rw [hd] at hb
      exact ⟨kv, hkv, v, hd, by simpa using hb⟩
  obtain ⟨kv, hkv, v, hget, hmiss, hcs⟩ := checkSubstituted_bad hbad'
  have hval : validate_issue bp issue = .error (.unknownReference kv.1 v) := by
    simp [validate_issue, checkMandatory_ok hmand, hcs]
  refine ⟨kv, hkv, v, hget, hmiss, hval, ?_⟩
  intro net basedate repl tr praw c1 children hcv hrp
  unfold post_affiliated_issue
  simp only [hcv, hrp, hval]

/-- Counterexample to C2 as stated: the Ticket Spec `{priority: "Bogus"}`
references a priority absent from the metadata mapping, yet resolution fails
with the `MissingFieldError` for `summary` (the mandatory-keys assertion runs
first), not with an `UnknownReferenceError`. -/
theorem C2_claim_counterexample :
    dget [("priority", Value.str "Bogus")] "priority" = some (.str "Bogus") ∧
    valueInMapping (.str "Bogus") (getMapping bpEx "priorities") = false ∧
    validate_issue bpEx [("priority", Value.str "Bogus")]
      = .error (.missingField "summary") ∧
    (Except.error (Err.missingField "summary") : Except Err Unit)
      ≠ .error (.unknownReference "priority" (.str "Bogus")) := by
  decide

/-- Witness for C2: a complete Ticket Spec whose priority "Bogus" is unknown
fails validation with the `UnknownReferenceError` and its group posts
nothing. -/
theorem C2_witness :
    ∃ kv ∈ substituted_keys, ∃ v,
      dget [("summary", Value.str "s"), ("issueType", Value.str "Task"),
        ("priority", Value.str "Bogus")] kv.1 = some v ∧
      valueInMapping v (getMapping bpEx kv.2) = false ∧
      validate_issue bpEx [("summary", Value.str "s"),
        ("issueType", Value.str "Task"), ("priority", Value.str "Bogus")]
        = .error (.unknownReference kv.1 v) ∧
      ∀ (net : Net) (basedate : Option Int) (repl : List (String × String))
        (tr : List Payload) (praw c1 : Issue) (children : List Issue),
        convert_date_by_delta basedate praw = .ok c1 →
        replace_curly_braces repl c1 = .ok [("summary", Value.str "s"),
          ("issueType", Value.str "Task"), ("priority", Value.str "Bogus")] →
        post_affiliated_issue bpEx net basedate repl ⟨praw, children⟩ tr
          = (.error (.unknownReference kv.1 v), tr) :=
  C2_unknown_reference_fails_before_post bpEx
    [("summary", Value.str "s"), ("issueType", Value.str "Task"),
      ("priority", Value.str "Bogus")] (by decide) (by decide)

/-- C3: every Ticket Spec missing a mandatory field (summary, issueType or
priority) fails validation with a `MissingFieldError` naming a missing field,
and a parent Ticket Spec resolving to it is never posted. -/
theorem C3_missing_mandatory_fails_before_post (bp : BacklogProject)
    (issue : Issue) (hmiss : ∃ k ∈ mandatory_keys, dget issue k = none) :
    ∃ k ∈ mandatory_keys, dget issue k = none ∧
      validate_issue bp issue = .error (.missingField k) ∧
      ∀ (net : Net) (basedate : Option Int) (repl : List (String × String))
        (tr : List Payload) (praw c1 : Issue) (children : List Issue),
        convert_date_by_delta basedate praw = .ok c1 →
        replace_curly_braces repl c1 = .ok issue →
        post_affiliated_issue bp net basedate repl ⟨praw, children⟩ tr
          = (.error (.missingField k), tr) := by
  obtain ⟨k, hk, hnone, hcm⟩ := checkMandatory_missing hmiss
  have hval : validate_issue bp issue = .error (.missingField k) := by
    simp [validate_issue, hcm]
  refine ⟨k, hk, hnone, hval, ?_⟩
  intro net basedate repl tr praw c1 children hcv hrp
  unfold post_affiliated_issue
  simp only [hcv, hrp, hval]

/-- Witness for C3: a Ticket Spec with only a priority is missing `summary`,
fails with that `MissingFieldError`, and its group posts nothing. -/
theorem C3_witness :
    ∃ k ∈ mandatory_keys, dget [("priority", Value.str "Normal")] k = none ∧
      validate_issue bpEx [("priority", Value.str "Normal")]
        = .error (.missingField k) ∧
      ∀ (net : Net) (basedate : Option Int) (repl : List (String × String))
        (tr : List Payload) (praw c1 : Issue) (children : List Issue),
        convert_date_by_delta basedate praw = .ok c1 →
        replace_curly_braces repl c1 = .ok [("priority", Value.str "Normal")] →
        post_affiliated_issue bpEx net basedate repl ⟨praw, children⟩ tr
          = (.error (.missingField k), tr) :=
  C3_missing_mandatory_fails_before_post bpEx [("priority", Value.str "Normal")]
    (by decide)

/-- C5: a Ticket Spec whose `dueDate` is a relative-offset structure (a
`timedelta` keyword table) fails date resolution with the `ConfigError` (the
`TypeError` of `None + timedelta`) whenever the base date is absent. -/
theorem C5_relative_due_date_without_basedate (d : Issue)
    (args : List (String × Int)) (off : Int)
    (h1 : dget d "dueDate" = some (.delta args))
    (h2 : timedeltaDays args = .ok off) :
    convert_date_by_delta none d = .error .configError := by
  unfold convert_date_by_delta
  simp [h1, h2]

/-- Witness for C5: `dueDate = {days: 5}` with no configured base date. -/
theorem C5_witness :
    convert_date_by_delta none [("dueDate", Value.delta [("days", 5)])]
      = .error .configError :=
  C5_relative_due_date_without_basedate
    [("dueDate", Value.delta [("days", 5)])] [("days", 5)] 5
    (by decide) (by decide)

/-- C6: resolution applies its three phases in the fixed order — date
resolution, then substitution, then validation — so that validation sees the
final resolved values: the code path of `post_affiliated_issue` factors
through the spec's resolver `resolveTicket_spec` applied to the parent; and
substitution leaves already-resolved date-typed values untouched. -/
theorem C6_resolution_phase_order (bp : BacklogProject) (net : Net)
    (basedate : Option Int) (repl : List (String × String))
    (parent : Issue) (children : List Issue) (tr : List Payload) :
    (post_affiliated_issue bp net basedate repl ⟨parent, children⟩ tr =
      match resolveTicket_spec basedate repl bp parent with
      | .error e => (.error e, tr)
      | .ok p2 =>
        match post_issue bp net p2 tr with
        | (.error e, tr2) => (.error e, tr2)
        | (.ok r, tr2) =>
          match childStages basedate repl bp children with
          | .error e => (.error e, tr2)
          | .ok cs2 => postChildren bp net r.id cs2 tr2) ∧
    ∀ t, substValue repl (.date t) = .ok (.date t) := by
  constructor
  · unfold post_affiliated_issue resolveTicket_spec
    cases hc : convert_date_by_delta basedate parent with
    | error e => simp [hc]
    | ok c1 =>
      cases hr : replace_curly_braces repl c1 with
      | error e => simp [hc, hr]
      | ok p2 =>
        cases hv : validate_issue bp p2 with
        | error e => simp [hc, hr, hv]
        | ok u =>
          cases u
          simp [hc, hr, hv]
  · intro t
    rfl

/-- C7: relative-date resolution is a pure function of the base date and the
offset — for every base date and day/week delta the resolved `dueDate` is
`baseDate + offset` — and a `dueDate` that is already a literal date passes
through unchanged. -/
theorem C7_relative_date_resolution_pure :
    (∀ (d : Issue) (b off : Int) (args : List (String × Int)),
      dget d "dueDate" = some (.delta args) → timedeltaDays args = .ok off →
      convert_date_by_delta (some b) d
        = .ok (dset d "dueDate" (.date (b + off)))) ∧
    (∀ (d : Issue) (basedate : Option Int) (t : Int),
      dget d "dueDate" = some (.date t) →
      convert_date_by_delta basedate d = .ok d) := by
  constructor
  · intro d b off args h1 h2
    unfold convert_date_by_delta
    simp [h1, h2]
  · intro d basedate t h1
    unfold convert_date_by_delta
    simp [h1]

/-- Witness for C7: base date 2024-01-01 with offset `{days: 5}` resolves the
`dueDate` to 2024-01-06, and a literal 2024-01-06 passes through unchanged. -/
theorem C7_witness :
    convert_date_by_delta (some (daysFromCivil 2024 1 1))
        [("dueDate", Value.delta [("days", 5)])]
        = .ok [("dueDate", Value.date (daysFromCivil 2024 1 6))] ∧
      convert_date_by_delta none [("dueDate", Value.date (daysFromCivil 2024 1 6))]
        = .ok [("dueDate", Value.date (daysFromCivil 2024 1 6))] := by
  constructor
  · rw [C7_relative_date_resolution_pure.1
      [("dueDate", Value.delta [("days", 5)])] (daysFromCivil 2024 1 1) 5
      [("days", 5)] (by decide) (by decide)]
    decide
  · exact C7_relative_date_resolution_pure.2
      [("dueDate", Value.date (daysFromCivil 2024 1 6))] none
      (daysFromCivil 2024 1 6) (by decide)

/-- C8 (amended): variable substitution is the identity — and hence
idempotent — on string fields containing no brace characters at all, for every
substitutions mapping.  The original claim, phrased for strings merely free of
placeholder tokens, is refuted by `C8_claim_counterexample`: `str.format`
rewrites the brace escape written `\x7b\x7b` even though it is not a
placeholder. -/
theorem C8_substitution_identity_on_braceless (repl : List (String × String))
    (s : String) (h : ∀ c ∈ s.data, c ≠ lbrace ∧ c ≠ rbrace) :
    pyFormat repl s = .ok s ∧
      Except.bind (pyFormat repl s) (pyFormat repl) = pyFormat repl s := by
  obtain ⟨l⟩ := s
  have h1 : pyFormat repl (String.mk l) = .ok (String.mk l) := by
    unfold pyFormat
    rw [pyFormatSM_nobrace repl l h]
  refine ⟨h1, ?_⟩
  rw [h1]
  exact h1

/-- Counterexample to C8 as stated: the two-character string of doubled
opening braces contains no placeholder token, yet substitution under the empty
mapping returns the single-brace string, not the input. -/
theorem C8_claim_counterexample :
    formatFieldNames (String.mk [lbrace, lbrace]) = some [] ∧
    pyFormat [] (String.mk [lbrace, lbrace]) = .ok (String.mk [lbrace]) ∧
    String.mk [lbrace] ≠ String.mk [lbrace, lbrace] := by
  decide

/-- Witness for C8: a brace-free summary string is returned unchanged and a
second application changes nothing. -/
theorem C8_witness :
    pyFormat [("n", "3")] "Sprint 3" = .ok "Sprint 3" ∧
      Except.bind (pyFormat [("n", "3")] "Sprint 3") (pyFormat [("n", "3")])
        = pyFormat [("n", "3")] "Sprint 3" :=
  C8_substitution_identity_on_braceless [("n", "3")] "Sprint 3" (by decide)

/-- C9: when the reply to the pre-submission confirmation prompt does not
lowercase to exactly "y" — including the empty reply and "yes" — the post
command performs no HTTP request at all, neither a metadata GET nor a mutating
POST, and terminates normally; by contraposition, any run whose trace is
non-empty was confirmed with a reply lowercasing to "y". -/
theorem C9_non_yes_reply_no_http (space_domain project_key : String)
    (data : FetchedData) (net : Net) (basedate : Option Int)
    (repl : List (String × String)) (issues : List AffiliatedIssue)
    (answer : String) (h : pyLower answer ≠ "y") :
    cli_post space_domain project_key data net basedate repl issues answer
      = (.ok (), []) := by
  unfold cli_post
  simp [is_yes, h]

/-- Witness for C9: the reply "yes" (which lowercases to "yes", not "y")
produces no HTTP event at all on a template that would otherwise post. -/
theorem C9_witness :
    cli_post "x.example" "PRJ" fdEx netOkEx none [] [aiEx] "yes"
      = (.ok (), []) :=
  C9_non_yes_reply_no_http "x.example" "PRJ" fdEx netOkEx none [] [aiEx]
    "yes" (by decide)
